import Mathlib

/-!
Shallow embedding of the psycopg2 connection object (`connection_type.c`):
the connection lifecycle / polling state machine, the DBAPI boundary checks
(closed-connection and async-mode guards), isolation-level validation,
client-encoding normalization, and connection setup with password redaction.

Functions that live in files of the repository other than
`connection_type.c` (the `EXC_IF_*` macros of `connection.h`, and
`conn_poll_connect_send`, `conn_poll_connect_fetch`, `conn_poll_ready`,
`conn_poll_green` of `pqpath.c`) are modelled from the spec; their doc
comments say so explicitly.

The transport (libpq) is modelled as an oracle supplied per call: a record
of the answers the transport would give.  Every embedded operation returns,
besides its Python-level result (`Except PyErr _`), the updated connection
state and the list of transport invocations it performed, so that claims of
the form "fails before any transport side effect" are statable.
-/

/-- Connection status values (the `CONN_STATUS_*` constants used by
`connection_type.c`).  `ASYNC` is the "connecting" state: the middle of a
`PQconnectPoll` loop. -/
inductive ConnStatus where
  | SETUP
  | ASYNC
  | SEND_DATESTYLE
  | SENT_DATESTYLE
  | GET_DATESTYLE
  | SEND_CLIENT_ENCODING
  | SENT_CLIENT_ENCODING
  | GET_CLIENT_ENCODING
  | READY
  | BEGIN
deriving DecidableEq, Repr

/-- Poll directive `PSYCO_POLL_OK` (`complete`). -/
def PSYCO_POLL_OK : Nat := 0

/-- Poll directive `PSYCO_POLL_READ` (`waitReadable`). -/
def PSYCO_POLL_READ : Nat := 1

/-- Poll directive `PSYCO_POLL_WRITE` (`waitWritable`). -/
def PSYCO_POLL_WRITE : Nat := 2

/-- Python exception classes raised by the embedded code. -/
inductive PyErrClass where
  | InterfaceError
  | OperationalError
  | ProgrammingError
  | ValueError
  | TypeError
deriving DecidableEq, Repr

/-- A raised Python exception: class plus message. -/
structure PyErr where
  cls : PyErrClass
  msg : String
deriving DecidableEq, Repr

/-- Result values of libpq `PQconnectPoll` (`PostgresPollingStatusType`). -/
inductive PGPollStatus where
  | PGRES_POLLING_READING
  | PGRES_POLLING_WRITING
  | PGRES_POLLING_FAILED
  | PGRES_POLLING_OK
  | PGRES_POLLING_ACTIVE
deriving DecidableEq, Repr

/-- Status of an in-flight asynchronous query as reported by the
query-execution collaborator. -/
inductive QueryStatus where
  | needRead
  | needWrite
  | done
deriving DecidableEq, Repr

/-- Oracle for the transport / collaborator answers consumed during one
embedded call. -/
structure Transport where
  connectPoll : PGPollStatus
  errorMessage : String
  standardConformingStrings : Bool
  sendOk : Bool
  resultReady : Bool
  paramValue : String
  queryStatus : QueryStatus
  opOk : Bool
deriving DecidableEq, Repr

/-- One invocation of a transport / collaborator primitive, recorded in
order.  `connectPoll` records whether the connection's mutual-exclusion
lock was held at the moment of the call. -/
inductive TransportCall where
  | connectPoll (lockHeld : Bool)
  | sendQuery (q : String)
  | fetchResult
  | queryStatusCheck
  | commitCall
  | rollbackCall
  | switchIsolationLevel (level : Int)
  | pqResetCall
  | connSetupCall
  | setClientEncoding (enc : List Char)
  | cursorFactory (named : Bool)
  | lobjectFactory
deriving DecidableEq, Repr

/-- The mutable state of a `connectionObject` relevant to the claims. -/
structure Conn where
  closed : Bool
  async : Bool
  status : ConnStatus
  async_cursor : Option Nat
  lock : Bool
  equote : Bool
  datestyle : Option String
  encoding : Option String
deriving DecidableEq, Repr

/-- Result of one embedded operation: the Python-level outcome, the updated
connection, and the transport calls made (in order). -/
structure OpResult (α : Type) where
  r : Except PyErr α
  conn : Conn
  calls : List TransportCall
deriving Repr

/-- Result of one `poll()` call (directive or error). -/
abbrev PollResult := OpResult Nat

/-- Error raised by the closed-connection guard. -/
def connClosedErr : PyErr := ⟨.InterfaceError, "connection already closed"⟩

/-- Error raised by the async-mode guard for a synchronous-only operation. -/
def asyncModeConflictErr (op : String) : PyErr :=
  ⟨.ProgrammingError, op ++ " cannot be used in asynchronous mode"⟩

/-- Error raised when a named cursor is requested on an async connection
(`connection_type.c:78`). -/
def namedCursorAsyncErr : PyErr :=
  ⟨.ProgrammingError, "asynchronous connections cannot produce named cursors"⟩

/-- Error raised when a cursor is requested mid-handshake
(`connection_type.c:72`), and by `poll()` in an unrecognized status
(`connection_type.c:458`). -/
def connAttemptUnderwayErr : PyErr :=
  ⟨.OperationalError, "asynchronous connection attempt underway"⟩

/-- Error raised for an out-of-range isolation level
(`connection_type.c:188`). -/
def isolationBoundsErr : PyErr :=
  ⟨.ValueError, "isolation level out of bounds (0,3)"⟩

/-- Error raised when `PQconnectPoll` returns a status outside the
recognized set (`connection_type.c:495`). -/
def unexpectedPollErr : PyErr :=
  ⟨.OperationalError, "unexpected result from PQconnectPoll"⟩

/-- Error raised when the transport reports handshake failure: its
diagnostic text is passed through (`connection_type.c:486`). -/
def handshakeFailedErr (msg : String) : PyErr := ⟨.OperationalError, msg⟩

/-- The spec's `AsyncModeConflict` error kind (spec §7): the error of the
async-mode guard for a synchronous-only operation, or the named-cursor
error on an asynchronous connection. -/
def IsAsyncModeConflict (e : PyErr) : Prop :=
  (∃ op, e = asyncModeConflictErr op) ∨ e = namedCursorAsyncErr

/-- Modelled from the spec: the `EXC_IF_CONN_CLOSED` macro lives in
`connection.h`, which is not under `src/`.  Any operation attempted after
`closed == true` fails with the connection-closed error. -/
def exc_if_conn_closed (c : Conn) : Option PyErr :=
  if c.closed then some connClosedErr else none

/-- Modelled from the spec: the `EXC_IF_CONN_ASYNC` macro lives in
`connection.h`, which is not under `src/`.  A synchronous-only operation
invoked on an asynchronous-mode connection fails with the
async-mode-conflict error before performing any side effect. -/
def exc_if_conn_async (c : Conn) (op : String) : Option PyErr :=
  if c.async then some (asyncModeConflictErr op) else none

/-- Parameter-discovery query for the date style session parameter.
Modelled from the spec: the query text constant lives outside `src/`. -/
def datestyleQuery : String := "SHOW datestyle"

/-- Parameter-discovery query for the client encoding session parameter.
Modelled from the spec: the query text constant lives outside `src/`. -/
def clientEncodingQuery : String := "SHOW client_encoding"

/-- Modelled from the spec: `conn_poll_connect_send` lives in `pqpath.c`,
which is not under `src/`.  Spec §4.1: from `sendingParam[k]`, wait for
writability, then issue the parameter-discovery query and move to
`sentParam[k]`; from `sentParam[k]` wait for readability until the query's
result is fully available, which the fetching state then consumes.  A
transport failure while issuing the query surfaces as `HandshakeFailed`
with the transport's diagnostic text (spec §7). -/
def conn_poll_connect_send (t : Transport) (c : Conn) : PollResult :=
  match c.status with
  | .SEND_DATESTYLE =>
      if t.sendOk then
        ⟨.ok PSYCO_POLL_READ, { c with status := .SENT_DATESTYLE },
          [.sendQuery datestyleQuery]⟩
      else
        ⟨.error (handshakeFailedErr t.errorMessage), c,
          [.sendQuery datestyleQuery]⟩
  | .SENT_DATESTYLE =>
      ⟨.ok PSYCO_POLL_READ, { c with status := .GET_DATESTYLE }, []⟩
  | .SEND_CLIENT_ENCODING =>
      if t.sendOk then
        ⟨.ok PSYCO_POLL_READ, { c with status := .SENT_CLIENT_ENCODING },
          [.sendQuery clientEncodingQuery]⟩
      else
        ⟨.error (handshakeFailedErr t.errorMessage), c,
          [.sendQuery clientEncodingQuery]⟩
  | .SENT_CLIENT_ENCODING =>
      ⟨.ok PSYCO_POLL_READ, { c with status := .GET_CLIENT_ENCODING }, []⟩
  | _ => ⟨.error connAttemptUnderwayErr, c, []⟩

/-- Modelled from the spec: `conn_poll_connect_fetch` lives in `pqpath.c`,
which is not under `src/`.  Spec §4.1: from `fetchingParam[k]`, wait for
readability until the query's result is fully available; on result, parse
and store the value, then advance to the next parameter's sending state
(directive `waitWritable`) or, when `k` was last, to `ready` (directive
`complete`). -/
def conn_poll_connect_fetch (t : Transport) (c : Conn) : PollResult :=
  match c.status with
  | .GET_DATESTYLE =>
      if t.resultReady then
        ⟨.ok PSYCO_POLL_WRITE,
          { c with status := .SEND_CLIENT_ENCODING,
                   datestyle := some t.paramValue },
          [.fetchResult]⟩
      else
        ⟨.ok PSYCO_POLL_READ, c, [.fetchResult]⟩
  | .GET_CLIENT_ENCODING =>
      if t.resultReady then
        ⟨.ok PSYCO_POLL_OK,
          { c with status := .READY, encoding := some t.paramValue },
          [.fetchResult]⟩
      else
        ⟨.ok PSYCO_POLL_READ, c, [.fetchResult]⟩
  | _ => ⟨.error connAttemptUnderwayErr, c, []⟩

/-- Modelled from the spec: `conn_poll_ready` lives in `pqpath.c`, which is
not under `src/`.  Spec §4.3: with no pending query, return `complete`
immediately; with a pending query, map the query-execution collaborator's
readiness signal to a directive, clearing the pending query on
completion. -/
def conn_poll_ready (t : Transport) (c : Conn) : PollResult :=
  match c.async_cursor with
  | none => ⟨.ok PSYCO_POLL_OK, c, []⟩
  | some _ =>
      match t.queryStatus with
      | .needRead => ⟨.ok PSYCO_POLL_READ, c, [.queryStatusCheck]⟩
      | .needWrite => ⟨.ok PSYCO_POLL_WRITE, c, [.queryStatusCheck]⟩
      | .done =>
          ⟨.ok PSYCO_POLL_OK, { c with async_cursor := none },
            [.queryStatusCheck]⟩

/-- Modelled from the spec: `conn_poll_green` lives in `pqpath.c`, which is
not under `src/`.  Spec §4.1 edge case: polling a synchronous-mode
connection delegates to the readiness check, so that it is well-defined and
usable to detect inbound notifications. -/
def conn_poll_green (t : Transport) (c : Conn) : PollResult :=
  conn_poll_ready t c

/-- Embedding of `psyco_conn_poll_async` (`connection_type.c:417`).  The
`ASYNC` case models the `pthread_mutex_lock` / `PQconnectPoll` /
`pthread_mutex_unlock` bracket: the `lock` field is set while the transport
primitive runs (the recorded call notes the lock was held) and cleared on
every exit path. -/
def psyco_conn_poll_async (t : Transport) (c : Conn) : PollResult :=
  match c.status with
  | .SETUP =>
      ⟨.ok PSYCO_POLL_WRITE, { c with status := .ASYNC }, []⟩
  | .SEND_DATESTYLE | .SENT_DATESTYLE
  | .SEND_CLIENT_ENCODING | .SENT_CLIENT_ENCODING =>
      conn_poll_connect_send t c
  | .GET_DATESTYLE | .GET_CLIENT_ENCODING =>
      conn_poll_connect_fetch t c
  | .READY | .BEGIN =>
      conn_poll_ready t c
  | .ASYNC =>
      let locked : Conn := { c with lock := true }
      match t.connectPoll with
      | .PGRES_POLLING_READING =>
          ⟨.ok PSYCO_POLL_READ, { locked with lock := false },
            [.connectPoll locked.lock]⟩
      | .PGRES_POLLING_WRITING =>
          ⟨.ok PSYCO_POLL_WRITE, { locked with lock := false },
            [.connectPoll locked.lock]⟩
      | .PGRES_POLLING_FAILED =>
          ⟨.error (handshakeFailedErr t.errorMessage),
            { locked with lock := false }, [.connectPoll locked.lock]⟩
      | .PGRES_POLLING_OK =>
          ⟨.ok PSYCO_POLL_WRITE,
            { locked with lock := false,
                          equote := t.standardConformingStrings,
                          status := .SEND_DATESTYLE },
            [.connectPoll locked.lock]⟩
      | .PGRES_POLLING_ACTIVE =>
          ⟨.error unexpectedPollErr, { locked with lock := false },
            [.connectPoll locked.lock]⟩

/-- Embedding of `psyco_conn_poll` (`connection_type.c:525`): the
closed-connection guard, then dispatch on the connection mode. -/
def psyco_conn_poll (t : Transport) (c : Conn) : PollResult :=
  match exc_if_conn_closed c with
  | some e => ⟨.error e, c, []⟩
  | none =>
      if c.async then psyco_conn_poll_async t c else conn_poll_green t c

/-- Embedding of `psyco_conn_isexecuting` (`connection_type.c:562`). -/
def psyco_conn_isexecuting (c : Conn) : Bool :=
  if c.async = false then false
  else if c.status ≠ ConnStatus.READY then true
  else if c.async_cursor ≠ none then true
  else false

/-- Embedding of `psyco_conn_commit` (`connection_type.c:133`): the closed
guard, the async guard, then `conn_commit` (a transport side effect). -/
def psyco_conn_commit (t : Transport) (c : Conn) : OpResult Unit :=
  match exc_if_conn_closed c with
  | some e => ⟨.error e, c, []⟩
  | none =>
      match exc_if_conn_async c "commit" with
      | some e => ⟨.error e, c, []⟩
      | none =>
          if t.opOk then ⟨.ok (), c, [.commitCall]⟩
          else ⟨.error (handshakeFailedErr t.errorMessage), c, [.commitCall]⟩

/-- Embedding of `psyco_conn_rollback` (`connection_type.c:154`). -/
def psyco_conn_rollback (t : Transport) (c : Conn) : OpResult Unit :=
  match exc_if_conn_closed c with
  | some e => ⟨.error e, c, []⟩
  | none =>
      match exc_if_conn_async c "rollback" with
      | some e => ⟨.error e, c, []⟩
      | none =>
          if t.opOk then ⟨.ok (), c, [.rollbackCall]⟩
          else ⟨.error (handshakeFailedErr t.errorMessage), c,
            [.rollbackCall]⟩

/-- Embedding of `psyco_conn_set_isolation_level`
(`connection_type.c:177`): the closed guard, the async guard, the range
check `level < 0 || level > 2`, then `conn_switch_isolation_level` (a
transport side effect). -/
def psyco_conn_set_isolation_level (t : Transport) (c : Conn) (level : Int) :
    OpResult Unit :=
  match exc_if_conn_closed c with
  | some e => ⟨.error e, c, []⟩
  | none =>
      match exc_if_conn_async c "set_isolation_level" with
      | some e => ⟨.error e, c, []⟩
      | none =>
          if level < 0 ∨ level > 2 then
            ⟨.error isolationBoundsErr, c, []⟩
          else if t.opOk then
            ⟨.ok (), c, [.switchIsolationLevel level]⟩
          else
            ⟨.error (handshakeFailedErr t.errorMessage), c,
              [.switchIsolationLevel level]⟩

/-- Embedding of `psyco_conn_reset` (`connection_type.c:383`): the closed
guard, the async guard, then `pq_reset` and `conn_setup` (transport side
effects). -/
def psyco_conn_reset (t : Transport) (c : Conn) : OpResult Unit :=
  match exc_if_conn_closed c with
  | some e => ⟨.error e, c, []⟩
  | none =>
      match exc_if_conn_async c "reset" with
      | some e => ⟨.error e, c, []⟩
      | none =>
          if t.opOk then ⟨.ok (), { c with status := .SETUP },
            [.pqResetCall, .connSetupCall]⟩
          else ⟨.error (handshakeFailedErr t.errorMessage), c,
            [.pqResetCall]⟩

/-- Embedding of `psyco_conn_cursor` (`connection_type.c:55`): the closed
guard, the mid-handshake status check, the named-cursor-on-async check,
then the cursor factory call.  The factory call is the operation's side
effect. -/
def psyco_conn_cursor (c : Conn) (name : Option String) : OpResult Unit :=
  match exc_if_conn_closed c with
  | some e => ⟨.error e, c, []⟩
  | none =>
      if c.status ≠ ConnStatus.READY ∧ c.status ≠ ConnStatus.BEGIN then
        ⟨.error connAttemptUnderwayErr, c, []⟩
      else if name ≠ none ∧ c.async then
        ⟨.error namedCursorAsyncErr, c, []⟩
      else
        ⟨.ok (), c, [.cursorFactory (name ≠ none : Bool)]⟩

/-- Large-object open modes built in `psyco_conn_lobject`
(`connection_type.c:327`). -/
inductive LobjectMode where
  | readwrite
  | readOnly
  | writeOnly
  | newMode
  | defaultMode
deriving DecidableEq, Repr

/-- Mode-string parsing of `psyco_conn_lobject` (`connection_type.c:327`):
`"rw"` prefix, else first character `r`, `w` or `n`, else a type error. -/
def lobject_parse_mode (smode : Option String) : Except PyErr LobjectMode :=
  match smode with
  | none => .ok .defaultMode
  | some s =>
      if s.startsWith "rw" then .ok .readwrite
      else
        match s.toList with
        | 'r' :: _ => .ok .readOnly
        | 'w' :: _ => .ok .writeOnly
        | 'n' :: _ => .ok .newMode
        | _ => .error ⟨.TypeError, "mode should be one of 'r', 'w' or 'rw'"⟩

/-- Embedding of `psyco_conn_lobject` (`connection_type.c:298`): the closed
guard, the async guard, the mode-string parse, then the lobject factory
call (the side effect). -/
def psyco_conn_lobject (c : Conn) (smode : Option String) : OpResult Unit :=
  match exc_if_conn_closed c with
  | some e => ⟨.error e, c, []⟩
  | none =>
      match exc_if_conn_async c "lobject" with
      | some e => ⟨.error e, c, []⟩
      | none =>
          match lobject_parse_mode smode with
          | .error e => ⟨.error e, c, []⟩
          | .ok _ => ⟨.ok (), c, [.lobjectFactory]⟩

/-- The character-normalization loop of `psyco_conn_set_client_encoding`
(`connection_type.c:223`): drop `'_'` and `'-'`, upper-case the rest. -/
def encoding_buffer : List Char → List Char
  | [] => []
  | ch :: cs =>
      if ch = '_' ∨ ch = '-' then encoding_buffer cs
      else ch.toUpper :: encoding_buffer cs

/-- Embedding of `psyco_conn_set_client_encoding`
(`connection_type.c:209`): the closed guard, the async guard, the
normalization loop, then `conn_set_client_encoding` on the normalized
buffer (the transport side effect). -/
def psyco_conn_set_client_encoding (t : Transport) (c : Conn)
    (enc : String) : OpResult Unit :=
  match exc_if_conn_closed c with
  | some e => ⟨.error e, c, []⟩
  | none =>
      match exc_if_conn_async c "set_client_encoding" with
      | some e => ⟨.error e, c, []⟩
      | none =>
          let buffer := encoding_buffer enc.toList
          if t.opOk then ⟨.ok (), c, [.setClientEncoding buffer]⟩
          else ⟨.error (handshakeFailedErr t.errorMessage), c,
            [.setClientEncoding buffer]⟩

/-- First index at which `needle` occurs in `hay` (C `strstr`, as an
index). -/
def strstr_idx (hay needle : List Char) : Option Nat :=
  if needle.isPrefixOf hay then some 0
  else
    match hay with
    | [] => none
    | _ :: t => (strstr_idx t needle).map (· + 1)

/-- The masking loop of `connection_setup` (`connection_type.c:729`):
overwrite each character with `'x'` until a space or the end of the
string. -/
def mask_value : List Char → List Char
  | [] => []
  | ch :: cs => if ch = ' ' then ch :: cs else 'x' :: mask_value cs

/-- The password-redaction step of `connection_setup`
(`connection_type.c:727`): find the first occurrence of `"password"`, skip
nine characters from its start (the key and one delimiter character), and
mask from there until a space or the end of the string. -/
def redact_dsn (dsn : List Char) : List Char :=
  match strstr_idx dsn "password".toList with
  | none => dsn
  | some i => dsn.take (i + 9) ++ mask_value (dsn.drop (i + 9))

/-- Outcome of `connection_setup`: the connection fields the claims are
about, the connection strings handed to `conn_connect` (in order), and the
C return code. -/
structure SetupOutcome where
  dsn : List Char
  closed : Bool
  async : Bool
  status : ConnStatus
  connectCalls : List (List Char)
  res : Int
deriving DecidableEq, Repr

/-- Embedding of `connection_setup` (`connection_type.c:685`): store the
connection string, initialize the fields, call `conn_connect` once on the
stored (unredacted) string, then — whether or not the connection attempt
succeeded — redact the password in the stored copy. -/
def connection_setup (dsn : List Char) (async : Bool) (connectOk : Bool) :
    SetupOutcome :=
  let stored := dsn
  let calls := [stored]
  let res : Int := if connectOk then 0 else -1
  let stored := redact_dsn stored
  { dsn := stored, closed := false, async := async,
    status := .SETUP, connectCalls := calls, res := res }

/-- Substring containment, via `strstr_idx` (true iff `needle` occurs in
`hay`). -/
def contains_sub (hay needle : List Char) : Bool :=
  (strstr_idx hay needle).isSome

/-- Position of a status in the canonical asynchronous handshake order
(spec §4.1): `setup, connecting, sendingDateStyle, sentDateStyle,
fetchingDateStyle, sendingEncoding, sentEncoding, fetchingEncoding,
ready`.  `BEGIN` is not part of the handshake. -/
def handshakeIdx : ConnStatus → Option Nat
  | .SETUP => some 0
  | .ASYNC => some 1
  | .SEND_DATESTYLE => some 2
  | .SENT_DATESTYLE => some 3
  | .GET_DATESTYLE => some 4
  | .SEND_CLIENT_ENCODING => some 5
  | .SENT_CLIENT_ENCODING => some 6
  | .GET_CLIENT_ENCODING => some 7
  | .READY => some 8
  | .BEGIN => none

/-- Directive `poll()` returns on the call that advances INTO the given
status: `waitWritable` before the connecting and each sending step,
`waitReadable` before each sent/fetching step, `complete` on the final
transition to `ready`. -/
def enteringDirective : ConnStatus → Nat
  | .ASYNC => PSYCO_POLL_WRITE
  | .SEND_DATESTYLE => PSYCO_POLL_WRITE
  | .SENT_DATESTYLE => PSYCO_POLL_READ
  | .GET_DATESTYLE => PSYCO_POLL_READ
  | .SEND_CLIENT_ENCODING => PSYCO_POLL_WRITE
  | .SENT_CLIENT_ENCODING => PSYCO_POLL_READ
  | .GET_CLIENT_ENCODING => PSYCO_POLL_READ
  | .READY => PSYCO_POLL_OK
  | _ => PSYCO_POLL_OK

/-- Drive `poll()` up to `n` times against a fixed transport oracle,
recording before each call the current status and the call's outcome;
stops early on an error. -/
def pollRun (t : Transport) : Nat → Conn → List (ConnStatus × Except PyErr Nat) × Conn
  | 0, c => ([], c)
  | n + 1, c =>
      let res := psyco_conn_poll t c
      match res.r with
      | .error e => ([(c.status, .error e)], res.conn)
      | .ok d =>
          let rest := pollRun t n res.conn
          ((c.status, .ok d) :: rest.1, rest.2)

/-- A non-closed asynchronous connection at the given status, with no
pending query and the lock free. -/
def connAt (s : ConnStatus) : Conn :=
  ⟨false, true, s, none, false, false, none, none⟩

/-- A non-closed synchronous connection at the given status. -/
def syncConnAt (s : ConnStatus) : Conn :=
  ⟨false, false, s, none, false, false, none, none⟩

/-- A transport oracle on which every step makes progress. -/
def tOk : Transport :=
  ⟨.PGRES_POLLING_OK, "failure text", true, true, true, "ISO", .done, true⟩

/-- C4: `isexecuting()` returns true iff the connection is in asynchronous
mode and (its status is not `READY` or a query is pending); in particular
it is false for every synchronous-mode connection
(`connection_type.c:562`). -/
theorem isexecuting_iff (c : Conn) :
    psyco_conn_isexecuting c = true ↔
      c.async = true ∧
        (c.status ≠ ConnStatus.READY ∨ c.async_cursor ≠ none) := by
  rcases c with ⟨cl, a, st, cur, lk, eqt, ds, en⟩
  cases a <;> cases cur <;> cases st <;>
    simp [psyco_conn_isexecuting]

/-- C2: `poll()` on a closed connection always fails with the
connection-closed error, regardless of the connection's prior status and
mode, with no transport interaction and no state change
(`connection_type.c:525`). -/
theorem poll_closed_fails (t : Transport) (c : Conn) (h : c.closed = true) :
    psyco_conn_poll t c = ⟨.error connClosedErr, c, []⟩ := by
  simp [psyco_conn_poll, exc_if_conn_closed, h]

/-- Witness for `poll_closed_fails` at a concrete closed connection. -/
theorem poll_closed_fails_witness :
    ({ connAt .READY with closed := true } : Conn).closed = true ∧
      psyco_conn_poll tOk { connAt .READY with closed := true } =
        ⟨.error connClosedErr, { connAt .READY with closed := true }, []⟩ :=
  ⟨rfl, poll_closed_fails tOk { connAt .READY with closed := true } rfl⟩

/-- C9: on an asynchronous connection in `SETUP`, `poll()` unconditionally
moves the status to `ASYNC` ("connecting") and returns `waitWritable`
without invoking any transport operation, hence the first `poll()` after
construction succeeds and can never fail with `HandshakeFailed`
(`connection_type.c:426`). -/
theorem poll_setup_first_step (t : Transport) (c : Conn)
    (hc : c.closed = false) (ha : c.async = true)
    (hs : c.status = ConnStatus.SETUP) :
    psyco_conn_poll t c =
      ⟨.ok PSYCO_POLL_WRITE, { c with status := .ASYNC }, []⟩ := by
  rcases c with ⟨cl, a, st, cur, lk, eqt, ds, en⟩
  subst hc ha hs
  rfl

/-- Witness for `poll_setup_first_step` at a concrete fresh connection. -/
theorem poll_setup_first_step_witness :
    psyco_conn_poll tOk (connAt .SETUP) =
      ⟨.ok PSYCO_POLL_WRITE, { connAt .SETUP with status := .ASYNC }, []⟩ :=
  poll_setup_first_step tOk (connAt .SETUP) rfl rfl rfl

/-- C8: on a non-closed connection with status `READY` and no pending
query, `poll()` returns `complete`, makes no transport call and leaves the
state unchanged — so repeated `poll()` calls in that state keep returning
`complete` (steady-state idempotence); this holds in both modes
(`connection_type.c:449`, delegating to the readiness check). -/
theorem poll_ready_idempotent (t : Transport) (c : Conn)
    (hc : c.closed = false) (hs : c.status = ConnStatus.READY)
    (hq : c.async_cursor = none) :
    psyco_conn_poll t c = ⟨.ok PSYCO_POLL_OK, c, []⟩ := by
  rcases c with ⟨cl, a, st, cur, lk, eqt, ds, en⟩
  subst hc hs hq
  cases a <;> rfl

/-- Witness for `poll_ready_idempotent` at a concrete established
connection. -/
theorem poll_ready_idempotent_witness :
    psyco_conn_poll tOk (connAt .READY) =
      ⟨.ok PSYCO_POLL_OK, connAt .READY, []⟩ :=
  poll_ready_idempotent tOk (connAt .READY) rfl rfl rfl

/-- C5: on a non-closed synchronous connection, `set_isolation_level`
accepts exactly the levels `0`, `1`, `2` (the transport switch is invoked
and no validation error is raised) and rejects every level outside that
range with the validation error, before any transport call is made
(`connection_type.c:187`). -/
theorem set_isolation_level_validates (t : Transport) (c : Conn)
    (level : Int) (hc : c.closed = false) (ha : c.async = false) :
    (0 ≤ level ∧ level ≤ 2 →
      (psyco_conn_set_isolation_level t c level).calls =
          [.switchIsolationLevel level] ∧
        (psyco_conn_set_isolation_level t c level).r ≠
          .error isolationBoundsErr) ∧
    (level < 0 ∨ 2 < level →
      psyco_conn_set_isolation_level t c level =
        ⟨.error isolationBoundsErr, c, []⟩) := by
  constructor
  · rintro ⟨h0, h2⟩
    have hrange : ¬(level < 0 ∨ level > 2) := by omega
    cases hop : t.opOk <;>
      simp [psyco_conn_set_isolation_level, exc_if_conn_closed,
        exc_if_conn_async, hc, ha, hrange, hop, isolationBoundsErr,
        handshakeFailedErr]
  · intro h
    have hrange : level < 0 ∨ level > 2 := by omega
    simp [psyco_conn_set_isolation_level, exc_if_conn_closed,
      exc_if_conn_async, hc, ha, hrange]

/-- Witness for `set_isolation_level_validates`: level `3` is rejected
with the validation error and no transport call on a concrete
connection. -/
theorem set_isolation_level_validates_witness :
    psyco_conn_set_isolation_level tOk (syncConnAt .READY) 3 =
      ⟨.error isolationBoundsErr, syncConnAt .READY, []⟩ :=
  (set_isolation_level_validates tOk (syncConnAt .READY) 3 rfl rfl).2
    (by norm_num)

/-- The normalization loop equals "drop every `'-'` and `'_'`, upper-case
the remaining characters". -/
theorem encoding_buffer_eq (l : List Char) :
    encoding_buffer l =
      (l.filter fun ch => !(ch == '_' || ch == '-')).map Char.toUpper := by
  induction l with
  | nil => rfl
  | cons ch cs ih =>
      by_cases h : ch = '_' ∨ ch = '-'
      · rcases h with h | h <;> subst h <;>
          simpa [encoding_buffer, List.filter] using ih
      · push_neg at h
        have hb : (ch == '_' || ch == '-') = false := by
          simp [h.1, h.2]
        simp [encoding_buffer, h.1, h.2, List.filter_cons, hb, ih]

/-- C10: on a non-closed synchronous connection, `set_client_encoding`
passes exactly the normalized name (every `'-'` and `'_'` deleted, all
remaining characters upper-cased) to the connection-level encoding setter,
and two arguments with equal normalizations produce the same request
(`connection_type.c:209`). -/
theorem set_client_encoding_normalizes (t : Transport) (c : Conn)
    (enc : String) (hc : c.closed = false) (ha : c.async = false) :
    (psyco_conn_set_client_encoding t c enc).calls =
      [.setClientEncoding
        ((enc.toList.filter fun ch => !(ch == '_' || ch == '-')).map
          Char.toUpper)] ∧
    ∀ enc2 : String, encoding_buffer enc2.toList = encoding_buffer enc.toList →
      (psyco_conn_set_client_encoding t c enc2).calls =
        (psyco_conn_set_client_encoding t c enc).calls := by
  constructor
  · cases hop : t.opOk <;>
      simp [psyco_conn_set_client_encoding, exc_if_conn_closed,
        exc_if_conn_async, hc, ha, hop, encoding_buffer_eq]
  · intro enc2 h2
    have h2' : encoding_buffer enc2.data = encoding_buffer enc.data := h2
    cases hop : t.opOk <;>
      simp [psyco_conn_set_client_encoding, exc_if_conn_closed,
        exc_if_conn_async, hc, ha, hop, h2']

/-- Witness for `set_client_encoding_normalizes`: `"utf_8"` is normalized
to `"UTF8"`, and `"UTF-8"` produces the same request. -/
theorem set_client_encoding_normalizes_witness :
    (psyco_conn_set_client_encoding tOk (syncConnAt .READY) "utf_8").calls =
      [.setClientEncoding "UTF8".toList] ∧
    (psyco_conn_set_client_encoding tOk (syncConnAt .READY) "UTF-8").calls =
      (psyco_conn_set_client_encoding tOk (syncConnAt .READY) "utf_8").calls := by
  have h := set_client_encoding_normalizes tOk (syncConnAt .READY) "utf_8"
    rfl rfl
  exact ⟨by rw [h.1]; rfl, h.2 "UTF-8" (by rfl)⟩

/-- C7: `poll()` acquires the mutual-exclusion guard before invoking the
transport's blocking-capable handshake primitive and releases it on every
exit path (`connection_type.c:464`): every recorded `PQconnectPoll`
invocation happened with the lock held, and the lock is free again
whenever `poll()` returns or fails. -/
theorem poll_lock_bracketed (t : Transport) (c : Conn)
    (hc : c.closed = false) (hl : c.lock = false) :
    (psyco_conn_poll t c).conn.lock = false ∧
    ∀ b, TransportCall.connectPoll b ∈ (psyco_conn_poll t c).calls →
      b = true := by
  rcases t with ⟨cp, em, scs, so, rr, pv, qs, oo⟩
  rcases c with ⟨cl, a, st, cur, lk, eqt, ds, en⟩
  subst hc hl
  cases a <;> cases st <;> cases cur <;> cases cp <;> cases so <;>
    cases rr <;> cases qs <;>
    simp [psyco_conn_poll, exc_if_conn_closed, psyco_conn_poll_async,
      conn_poll_connect_send, conn_poll_connect_fetch, conn_poll_ready,
      conn_poll_green]

/-- Witness for `poll_lock_bracketed` on the handshake-failure path at a
concrete connecting connection. -/
theorem poll_lock_bracketed_witness :
    (psyco_conn_poll
        ⟨.PGRES_POLLING_FAILED, "boom", true, true, true, "ISO", .done, true⟩
        (connAt .ASYNC)).conn.lock = false ∧
    ∀ b, TransportCall.connectPoll b ∈
        (psyco_conn_poll
          ⟨.PGRES_POLLING_FAILED, "boom", true, true, true, "ISO", .done,
            true⟩
          (connAt .ASYNC)).calls → b = true :=
  poll_lock_bracketed
    ⟨.PGRES_POLLING_FAILED, "boom", true, true, true, "ISO", .done, true⟩
    (connAt .ASYNC) rfl rfl

/-- C6 (amended): on a non-closed asynchronous connection, each
synchronous-only operation — commit, rollback, isolation-level change,
reset, large-object open — fails with an `AsyncModeConflict` error before
performing any side effect (empty transport-call list, state unchanged);
a cursor request that supplies a name fails with the `AsyncModeConflict`
named-cursor error when the connection is established (status `READY` or
`BEGIN`); mid-handshake, any cursor request fails with the
connection-attempt-underway error instead (`connection_type.c:70`). -/
theorem async_mode_conflict_guards (t : Transport) (c : Conn)
    (hc : c.closed = false) (ha : c.async = true) :
    psyco_conn_commit t c =
      ⟨.error (asyncModeConflictErr "commit"), c, []⟩ ∧
    psyco_conn_rollback t c =
      ⟨.error (asyncModeConflictErr "rollback"), c, []⟩ ∧
    (∀ level, psyco_conn_set_isolation_level t c level =
      ⟨.error (asyncModeConflictErr "set_isolation_level"), c, []⟩) ∧
    psyco_conn_reset t c =
      ⟨.error (asyncModeConflictErr "reset"), c, []⟩ ∧
    (∀ smode, psyco_conn_lobject c smode =
      ⟨.error (asyncModeConflictErr "lobject"), c, []⟩) ∧
    ((c.status = ConnStatus.READY ∨ c.status = ConnStatus.BEGIN) →
      ∀ nm : String, psyco_conn_cursor c (some nm) =
        ⟨.error namedCursorAsyncErr, c, []⟩) ∧
    (∀ op, IsAsyncModeConflict (asyncModeConflictErr op)) ∧
    IsAsyncModeConflict namedCursorAsyncErr := by
  refine ⟨?_, ?_, ?_, ?_, ?_, ?_, fun op => Or.inl ⟨op, rfl⟩, Or.inr rfl⟩
  · simp [psyco_conn_commit, exc_if_conn_closed, exc_if_conn_async, hc, ha]
  · simp [psyco_conn_rollback, exc_if_conn_closed, exc_if_conn_async, hc, ha]
  · intro level
    simp [psyco_conn_set_isolation_level, exc_if_conn_closed,
      exc_if_conn_async, hc, ha]
  · simp [psyco_conn_reset, exc_if_conn_closed, exc_if_conn_async, hc, ha]
  · intro smode
    simp [psyco_conn_lobject, exc_if_conn_closed, exc_if_conn_async, hc, ha]
  · rintro (hst | hst) nm <;>
      simp [psyco_conn_cursor, exc_if_conn_closed, hc, hst, ha]

/-- Counterexample to C6 as stated: on a non-closed asynchronous
connection that is still mid-handshake (status `SETUP`), a named cursor
request fails with the connection-attempt-underway error, which is not an
`AsyncModeConflict`. -/
theorem async_named_cursor_counterexample :
    (connAt .SETUP).async = true ∧ (connAt .SETUP).closed = false ∧
    psyco_conn_cursor (connAt .SETUP) (some "n") =
      ⟨.error connAttemptUnderwayErr, connAt .SETUP, []⟩ ∧
    ¬ IsAsyncModeConflict connAttemptUnderwayErr := by
  refine ⟨rfl, rfl, by simp [psyco_conn_cursor, exc_if_conn_closed, connAt],
    ?_⟩
  rintro (⟨op, h⟩ | h) <;>
    simp [connAttemptUnderwayErr, asyncModeConflictErr, namedCursorAsyncErr,
      PyErr.mk.injEq] at h

/-- Witness for `async_mode_conflict_guards` at a concrete established
asynchronous connection. -/
theorem async_mode_conflict_guards_witness :
    psyco_conn_commit tOk (connAt .READY) =
      ⟨.error (asyncModeConflictErr "commit"), connAt .READY, []⟩ ∧
    psyco_conn_cursor (connAt .READY) (some "n") =
      ⟨.error namedCursorAsyncErr, connAt .READY, []⟩ := by
  have h := async_mode_conflict_guards tOk (connAt .READY) rfl rfl
  exact ⟨h.1, h.2.2.2.2.2.1 (Or.inl rfl) "n"⟩

/-- Masking a space-free value followed by a space-delimited (or empty)
remainder replaces exactly the value's characters with `'x'`. -/
theorem mask_value_replicate (pw suf : List Char) (hpw : ' ' ∉ pw)
    (hsuf : suf = [] ∨ ∃ s, suf = ' ' :: s) :
    mask_value (pw ++ suf) = List.replicate pw.length 'x' ++ suf := by
  induction pw with
  | nil => rcases hsuf with h | ⟨s, h⟩ <;> subst h <;> simp [mask_value]
  | cons ch cs ih =>
      have hne : ch ≠ ' ' := fun h => hpw (by simp [h])
      have hcs : ' ' ∉ cs := fun hm => hpw (List.mem_cons_of_mem _ hm)
      simp [mask_value, hne, ih hcs, List.replicate_succ]

/-- Taking exactly the left factor's length from an append yields the left
factor. -/
theorem take_append_length (l1 l2 : List Char) (n : Nat)
    (h : l1.length = n) : (l1 ++ l2).take n = l1 := by
  subst h
  induction l1 with
  | nil => rfl
  | cons a l ih => simp [ih]

/-- Dropping exactly the left factor's length from an append yields the
right factor. -/
theorem drop_append_length (l1 l2 : List Char) (n : Nat)
    (h : l1.length = n) : (l1 ++ l2).drop n = l2 := by
  subst h
  induction l1 with
  | nil => rfl
  | cons a l ih => simp [ih]

/-- Counterexample to C3 as stated: for the well-formed connection string
`"user=abc password=abc"` (password value `"abc"`), setup stores
`"user=abc password=xxx"`, which still contains the literal password
substring `"abc"` — the masking removed the value after the `password`
key but not the identical text elsewhere in the string. -/
theorem password_redaction_counterexample :
    (connection_setup "user=abc password=abc".toList true true).dsn =
      "user=abc password=xxx".toList ∧
    contains_sub (connection_setup "user=abc password=abc".toList true
      true).dsn "abc".toList = true := by
  constructor <;> rfl

/-- C3 (amended): for a connection string `pre ++ "password=" ++ pw ++
suf` whose first `"password"` occurrence starts the key, whose password
value `pw` is space-free, and whose remainder `suf` is empty or starts
with the space delimiter, `connection_setup` stores a diagnostic copy in
which every character of the password value is replaced by the mask
character `'x'`, and hands the unredacted string to the handshake exactly
once — whether or not the connection attempt succeeded.  The literal
password substring may still appear in the stored copy when the same text
also occurs outside the password value (`connection_type.c:685`). -/
theorem password_redaction_amended (pre pw suf : List Char) (a ok : Bool)
    (hfirst : strstr_idx (pre ++ "password=".toList ++ pw ++ suf)
      "password".toList = some pre.length)
    (hpw : ' ' ∉ pw)
    (hsuf : suf = [] ∨ ∃ s, suf = ' ' :: s) :
    (connection_setup (pre ++ "password=".toList ++ pw ++ suf) a ok).dsn =
      pre ++ "password=".toList ++ List.replicate pw.length 'x' ++ suf ∧
    (connection_setup (pre ++ "password=".toList ++ pw ++ suf) a
        ok).connectCalls =
      [pre ++ "password=".toList ++ pw ++ suf] := by
  refine ⟨?_, rfl⟩
  show redact_dsn (pre ++ "password=".toList ++ pw ++ suf) =
    pre ++ "password=".toList ++ List.replicate pw.length 'x' ++ suf
  have hassoc : pre ++ "password=".toList ++ pw ++ suf =
      (pre ++ "password=".toList) ++ (pw ++ suf) := by
    simp [List.append_assoc]
  have hlen : (pre ++ "password=".toList).length = pre.length + 9 := by
    simp [String.toList]
  have hred : redact_dsn (pre ++ "password=".toList ++ pw ++ suf) =
      (pre ++ "password=".toList ++ pw ++ suf).take (pre.length + 9) ++
        mask_value ((pre ++ "password=".toList ++ pw ++ suf).drop
          (pre.length + 9)) := by
    unfold redact_dsn
    rw [hfirst]
  rw [hred, hassoc,
    take_append_length (pre ++ "password=".toList) (pw ++ suf) _ hlen,
    drop_append_length (pre ++ "password=".toList) (pw ++ suf) _ hlen,
    mask_value_replicate pw suf hpw hsuf]
  simp [List.append_assoc]

/-- Witness for `password_redaction_amended` at a concrete connection
string with password value `"secret"`. -/
theorem password_redaction_amended_witness :
    (connection_setup ("host=h ".toList ++ "password=".toList ++
        "secret".toList ++ " port=5".toList) true true).dsn =
      "host=h ".toList ++ "password=".toList ++
        List.replicate "secret".toList.length 'x' ++ " port=5".toList ∧
    (connection_setup ("host=h ".toList ++ "password=".toList ++
        "secret".toList ++ " port=5".toList) true true).connectCalls =
      ["host=h ".toList ++ "password=".toList ++ "secret".toList ++
        " port=5".toList] :=
  password_redaction_amended "host=h ".toList "secret".toList
    " port=5".toList true true (by decide) (by decide)
    (Or.inr ⟨"port=5".toList, by decide⟩)

/-- C1: the successful asynchronous handshake negotiating the two session
parameters.  First conjuncts: against a transport on which every step
makes progress, eight `poll()` calls drive the status through exactly
`setup, connecting (ASYNC), sendingDateStyle, sentDateStyle,
fetchingDateStyle, sendingEncoding, sentEncoding, fetchingEncoding,
ready`, returning `waitWritable` before the connecting and each sending
step, `waitReadable` before each sent/fetching step, and `complete`
exactly once, on the final transition to `ready`.  Last conjunct: on any
transport, each successful `poll()` from an in-handshake status either
leaves the status unchanged and does not return `complete`, or advances it
to the next status of that canonical order returning the canonical
directive for the status entered, with `complete` returned exactly on the
transition into `ready` — so every successful handshake, however the
waits interleave, runs through exactly this sequence
(`connection_type.c:417`). -/
theorem async_handshake_sequence :
    (pollRun tOk 8 (connAt .SETUP)).1 =
      [(.SETUP, .ok PSYCO_POLL_WRITE),
       (.ASYNC, .ok PSYCO_POLL_WRITE),
       (.SEND_DATESTYLE, .ok PSYCO_POLL_READ),
       (.SENT_DATESTYLE, .ok PSYCO_POLL_READ),
       (.GET_DATESTYLE, .ok PSYCO_POLL_WRITE),
       (.SEND_CLIENT_ENCODING, .ok PSYCO_POLL_READ),
       (.SENT_CLIENT_ENCODING, .ok PSYCO_POLL_READ),
       (.GET_CLIENT_ENCODING, .ok PSYCO_POLL_OK)] ∧
    (pollRun tOk 8 (connAt .SETUP)).2.status = ConnStatus.READY ∧
    (∀ (t : Transport) (c : Conn) (i : Nat),
      c.closed = false → c.async = true →
      handshakeIdx c.status = some i → i < 8 →
      ∀ d c2 calls, psyco_conn_poll t c = ⟨.ok d, c2, calls⟩ →
        (c2.status = c.status ∧ d ≠ PSYCO_POLL_OK) ∨
        (handshakeIdx c2.status = some (i + 1) ∧
          d = enteringDirective c2.status ∧
          (d = PSYCO_POLL_OK ↔ c2.status = ConnStatus.READY))) := by
  refine ⟨rfl, rfl, ?_⟩
  intro t c i hc ha hi hlt d c2 calls hpoll
  rcases t with ⟨cp, em, scs, so, rr, pv, qs, oo⟩
  rcases c with ⟨cl, a, st, cur, lk, eqt, ds, en⟩
  subst hc ha
  cases st <;> cases cp <;> cases so <;> cases rr <;>
    simp only [handshakeIdx, Option.some.injEq, reduceCtorEq] at hi <;>
    (subst hi
     first
       | omega
       | (injection hpoll with h1 h2 h3
          first
            | (injection h1 with h1
               subst h2 h3
               subst h1
               simp [handshakeIdx, enteringDirective, PSYCO_POLL_OK,
                 PSYCO_POLL_READ, PSYCO_POLL_WRITE])
            | injection h1))

/-- Witness for the quantified part of `async_handshake_sequence`: the
first step, at a concrete fresh connection, advances into the connecting
status with directive `waitWritable`. -/
theorem async_handshake_sequence_witness :
    (({ connAt .SETUP with status := ConnStatus.ASYNC } : Conn).status =
        (connAt .SETUP).status ∧ PSYCO_POLL_WRITE ≠ PSYCO_POLL_OK) ∨
    (handshakeIdx ({ connAt .SETUP with status := ConnStatus.ASYNC } :
        Conn).status = some 1 ∧
      PSYCO_POLL_WRITE = enteringDirective
        ({ connAt .SETUP with status := ConnStatus.ASYNC } : Conn).status ∧
      (PSYCO_POLL_WRITE = PSYCO_POLL_OK ↔
        ({ connAt .SETUP with status := ConnStatus.ASYNC } : Conn).status =
          ConnStatus.READY)) :=
  async_handshake_sequence.2.2 tOk (connAt .SETUP) 0 rfl rfl rfl
    (by omega) PSYCO_POLL_WRITE
    { connAt .SETUP with status := ConnStatus.ASYNC } [] rfl
